import Mathlib

/-!
Verification of the Solar-Impact admin panel against its specification.

The client (an event editor UI) and the server (`admin.js`, an Express API
over MySQL) are shallowly embedded: JavaScript strings become `List Char`
where character-level operations matter and `String` where only emptiness
and equality matter; `undefined`/absent JSON fields become `Option`;
network activity of a handler becomes an explicit trace of `NetCall`
values; the database becomes a list of rows threaded through each route.
-/

namespace SolarImpact

/-- JavaScript `String.prototype.trim()` on a character list. -/
def jsTrim (s : List Char) : List Char :=
  ((s.dropWhile Char.isWhitespace).reverse.dropWhile Char.isWhitespace).reverse

/-- JavaScript `str.replace(/\D/g, '')`: keep only decimal digits. -/
def digitsOnly (s : List Char) : List Char :=
  s.filter Char.isDigit

/-- JavaScript `String.prototype.split(sep)` for a one-character separator:
always returns at least one (possibly empty) segment. -/
def splitOnSep (sep : Char) : List Char → List (List Char)
  | [] => [[]]
  | c :: rest =>
    let r := splitOnSep sep rest
    if c = sep then [] :: r
    else
      match r with
      | [] => [[c]]
      | h :: t => (c :: h) :: t

/-! ## Date input shaping (AdminEventModal.handleDateInputChange) -/

/-- The re-segmentation of an accumulated digit string into `MM/DD/YYYY`,
exactly as `handleDateInputChange` builds `formatted` from its slices. -/
def segmentDigits (digits : List Char) : List Char :=
  let mm := digits.take 2
  let dd := (digits.drop 2).take 2
  let yyyy := (digits.drop 4).take 4
  let f1 := mm
  let f2 := if dd = [] then f1 else f1 ++ (if f1 = [] then [] else ['/']) ++ dd
  let f3 := if yyyy = [] then f2 else f2 ++ (if f2 = [] then [] else ['/']) ++ yyyy
  f3

/-- `handleDateInputChange`: given the previous field value and the raw new
value, produce the next field value. -/
def handleDateInputChange (previous raw : List Char) : List Char :=
  let prevDigits := digitsOnly previous
  let digits := digitsOnly raw
  if prevDigits.length ≥ 8 ∧ digits.length > prevDigits.length then previous
  else
    let digits := if digits.length > 8 then digits.take 8 else digits
    segmentDigits digits

/-! ## Date round trip (handleSaveEvent payload / openEventModal) -/

/-- The ISO date built at the top of `handleSaveEvent`: requires the display
value to have length 10, splits on `/`, and requires all three pieces truthy
with a 4-character year. -/
def toIsoDate (date : List Char) : Option (List Char) :=
  if date ≠ [] ∧ date.length = 10 then
    let parts := splitOnSep '/' date
    let mm := parts.getD 0 []
    let dd := parts.getD 1 []
    let yyyy := parts.getD 2 []
    if mm ≠ [] ∧ dd ≠ [] ∧ yyyy ≠ [] ∧ yyyy.length = 4 then
      some (yyyy ++ '-' :: mm ++ '-' :: dd)
    else none
  else none

/-- The display date built in `openEventModal`: takes the first 10 characters
of the stored value, splits on `-`, and prints `MM/DD/YYYY`.  A missing piece
renders as the string `undefined`, as a JavaScript template literal would. -/
def toDisplayDate (stored : List Char) : List Char :=
  let iso := stored.take 10
  if iso = [] then []
  else
    let parts := splitOnSep '-' iso
    let yyyy := parts.getD 0 ("undefined".data)
    let mm := parts.getD 1 ("undefined".data)
    let dd := parts.getD 2 ("undefined".data)
    mm ++ '/' :: dd ++ '/' :: yyyy

/-! ## Event form validation (AdminEventModal) -/

/-- The seven editable fields of the event form, as kept in `eventForm`. -/
structure EventForm where
  date : List Char
  event_type : List Char
  location : List Char
  title : List Char
  short_description : List Char
  summary : List Char
  impact_on_communication : List Char
deriving DecidableEq

/-- Exact match of the pattern `\d{2}\/\d{2}\/\d{4}`. -/
def matchesMMDDYYYY (l : List Char) : Bool :=
  match l with
  | [a, b, s, c, d, t, e, f, g, h] =>
    a.isDigit && b.isDigit && (s = '/') && c.isDigit && d.isDigit && (t = '/')
      && e.isDigit && f.isDigit && g.isDigit && h.isDigit
  | _ => false

/-- `isValidDate`: the strict `^\d{2}\/\d{2}\/\d{4}$` test on the trimmed value. -/
def isValidDate (val : List Char) : Bool :=
  matchesMMDDYYYY (jsTrim val)

/-- The per-field error map produced by `validateEventForm`; an empty string
means no error for that field. -/
structure EventErrors where
  date : String
  event_type : String
  location : String
  title : String
  short_description : String
  summary : String
  impact_on_communication : String
deriving DecidableEq

def requiredMsg : String := "* Required field missing"

/-- `validateEventForm`: date must be MM/DD/YYYY, every other field must be
non-empty after trimming. -/
def validateEventForm (f : EventForm) : EventErrors :=
  { date := if ¬ isValidDate f.date then requiredMsg else ""
    event_type := if jsTrim f.event_type = [] then requiredMsg else ""
    location := if jsTrim f.location = [] then requiredMsg else ""
    title := if jsTrim f.title = [] then requiredMsg else ""
    short_description := if jsTrim f.short_description = [] then requiredMsg else ""
    summary := if jsTrim f.summary = [] then requiredMsg else ""
    impact_on_communication :=
      if jsTrim f.impact_on_communication = [] then requiredMsg else "" }

/-- `!Object.values(next).some(Boolean)`: true when no field has an error. -/
def errorsAllClear (e : EventErrors) : Bool :=
  (e.date = "") && (e.event_type = "") && (e.location = "") && (e.title = "")
    && (e.short_description = "") && (e.summary = "")
    && (e.impact_on_communication = "")

/-- Outcome of `handlePrimarySaveClick`: the tried-submit flag is set, the
errors are recomputed, and `onSave` (the only network path) runs only when
validation passed. -/
structure PrimarySaveOutcome where
  eventTriedSubmit : Bool
  eventErrors : EventErrors
  onSaveCalled : Bool
deriving DecidableEq

def handlePrimarySaveClick (f : EventForm) : PrimarySaveOutcome :=
  let next := validateEventForm f
  { eventTriedSubmit := true
    eventErrors := next
    onSaveCalled := errorsAllClear next }

/-! ## Caption-edit reset on media switch (AdminEventModal) -/

/-- What `currentMedia` exposes to the caption-reset effect: a server `id`
when the item is persisted (edit mode), `none` when it is a locally queued
item (create mode, which has only `localId`), plus the confirmed caption. -/
structure MediaView where
  serverId : Option Nat
  caption : List Char
deriving DecidableEq

/-- The caption-editing state of the modal. -/
structure CaptionState where
  captionEditing : Bool
  captionDraft : List Char
deriving DecidableEq

/-- The dependency of the reset effect: `currentMedia?.id`. -/
def captionEffectDep (m : Option MediaView) : Option Nat :=
  m.bind (·.serverId)

/-- One render step in which `currentMedia` goes from `prev` to `next`:
React re-runs the effect `setCaptionEditing(false); setCaptionDraft(...)`
only when its dependency `currentMedia?.id` changed. -/
def stepMediaChange (prev next : Option MediaView) (st : CaptionState) : CaptionState :=
  if captionEffectDep next = captionEffectDep prev then st
  else
    { captionEditing := false
      captionDraft := match next with
        | some m => m.caption
        | none => [] }

/-! ## Media deletion index clamping -/

/-- A persisted media row as held in `eventMedia` (edit mode). -/
structure PersistedMedia where
  id : Nat
  caption : List Char
deriving DecidableEq

/-- A locally queued media item as held in `createQueuedMedia` (create mode). -/
structure QueuedMedia where
  localId : String
  file : Nat
  previewUrl : String
  caption : List Char
deriving DecidableEq

/-- The state update inside `confirmDeleteMedia` (edit mode): filter out the
target id, then reset the index to 0 when the list became empty, else clamp
it below the new length. -/
def confirmDeleteMediaUpdate (media : List PersistedMedia) (targetId : Nat)
    (idx : Nat) : List PersistedMedia × Nat :=
  let next := media.filter (fun m => decide (m.id ≠ targetId))
  if next.length = 0 then (next, 0)
  else (next, if idx ≥ next.length then next.length - 1 else idx)

/-- The state update inside the create-mode `onDeleteMedia` handler: filter
out the target `localId` and keep the index safe via `Math.min`. -/
def createDeleteMediaUpdate (queued : List QueuedMedia) (target : String)
    (idx : Nat) : List QueuedMedia × Nat :=
  let next := queued.filter (fun m => decide (m.localId ≠ target))
  (next, if next.length ≠ 0 then min idx (next.length - 1) else 0)

/-! ## Year search (handleYearSearchSubmit) -/

/-- `Math.abs(Number(a) - Number(b))` on years. -/
def yearDist (a b : Nat) : Nat :=
  ((a : Int) - (b : Int)).natAbs

/-- The `YEARS.reduce` step picking the numerically closest year, starting
from `YEARS[0]`; on a tie the accumulator (the earlier year in iteration
order) is kept. -/
def closestReduce (years : List Nat) (num : Nat) : Nat :=
  years.foldl
    (fun prev curr => if yearDist curr num < yearDist prev num then curr else prev)
    (years.headD 0)

/-- Result state written by `handleYearSearchSubmit`: the error banner, the
informational banner, and the year handed to `setScrollToYear`. -/
structure YearSearchResult where
  searchError : String
  searchInfo : String
  scrollToYear : Option Nat
deriving DecidableEq

/-- The trimmed query must match `^\d{4}$`. -/
def isFourDigitQuery (q : List Char) : Bool :=
  let t := jsTrim q
  (t.length = 4) && t.all Char.isDigit

/-- `parseInt(trimmed, 10)` on a four-digit query. -/
def parseYearDigits (q : List Char) : Nat :=
  (jsTrim q).foldl (fun n c => n * 10 + (c.toNat - 48)) 0

/-- `handleYearSearchSubmit` over the derived ascending `YEARS` list (years
are embedded as the numbers their canonical decimal strings denote). -/
def handleYearSearchSubmit (years : List Nat) (q : List Char) : YearSearchResult :=
  if ¬ isFourDigitQuery q then
    { searchError := "Please enter a 4-digit year (for example, 1989)."
      searchInfo := ""
      scrollToYear := none }
  else if years.length = 0 then
    { searchError := "Events are still loading. Please try again in a moment."
      searchInfo := ""
      scrollToYear := none }
  else
    let num := parseYearDigits q
    if years.contains num then
      { searchError := "", searchInfo := "", scrollToYear := some num }
    else
      let closest := closestReduce years num
      { searchError := ""
        searchInfo := "No events for " ++ toString num ++ ". Showing closest year: "
          ++ toString closest ++ "."
        scrollToYear := some closest }

/-! ## Create-mode save (handleSaveEvent, isCreatingEvent branch) -/

/-- The JSON payload `handleSaveEvent` builds: `event_date` is the ISO date
or null, `event_type` is the raw field or null, the rest are trimmed. -/
structure EventPayload where
  event_date : Option (List Char)
  event_type : Option (List Char)
  location : List Char
  title : List Char
  short_description : List Char
  summary : List Char
  impact_on_communication : List Char
deriving DecidableEq

def buildPayload (f : EventForm) : EventPayload :=
  { event_date := toIsoDate f.date
    event_type := if f.event_type = [] then none else some f.event_type
    location := jsTrim f.location
    title := jsTrim f.title
    short_description := jsTrim f.short_description
    summary := jsTrim f.summary
    impact_on_communication := jsTrim f.impact_on_communication }

/-- The `missing` guard of `handleSaveEvent` over the built payload. -/
def payloadMissing (p : EventPayload) : Bool :=
  (p.event_date = none)
    || (jsTrim (p.event_type.getD []) = [])
    || (jsTrim p.location = [])
    || (jsTrim p.title = [])
    || (jsTrim p.short_description = [])
    || (jsTrim p.summary = [])
    || (jsTrim p.impact_on_communication = [])

/-- One network call issued by the create-mode save path. -/
inductive NetCall where
  | createEvent (payload : EventPayload)
  | uploadMedia (eventId : Nat) (file : Nat) (caption : List Char)
  | loadEvents
deriving DecidableEq

def NetCall.isCreate : NetCall → Bool
  | .createEvent _ => true
  | _ => false

def NetCall.isUpload : NetCall → Bool
  | .uploadMedia _ _ _ => true
  | _ => false

/-- Observable outcome of one run of the create-mode save path. -/
structure SaveOutcome where
  calls : List NetCall
  modalClosed : Bool
  listRefreshed : Bool
deriving DecidableEq

/-- The sequential `for` loop uploading queued items: each iteration issues
its upload call and the loop stops (by throwing) at the first failure.
`uploadOk i` tells whether the upload of item `i` succeeds. -/
def uploadLoop (eventId : Nat) (items : List QueuedMedia) (uploadOk : Nat → Bool)
    (i : Nat) : List NetCall × Bool :=
  match items with
  | [] => ([], true)
  | m :: rest =>
    let call := NetCall.uploadMedia eventId m.file (jsTrim m.caption)
    if uploadOk i then
      let r := uploadLoop eventId rest uploadOk (i + 1)
      (call :: r.1, r.2)
    else ([call], false)

/-- The `isCreatingEvent` branch of `handleSaveEvent`.  `createResp` is
`none` when the create request fails (non-2xx), `some id` when it returns
`{ id }`; a returned id of `0` embeds a falsy `data?.id`.  On any thrown
failure the `catch` block alerts and the modal stays open. -/
def runCreateSave (f : EventForm) (queued : List QueuedMedia)
    (createResp : Option Nat) (uploadOk : Nat → Bool) : SaveOutcome :=
  let p := buildPayload f
  if payloadMissing p then
    { calls := [], modalClosed := false, listRefreshed := false }
  else
    match createResp with
    | none =>
      { calls := [.createEvent p], modalClosed := false, listRefreshed := false }
    | some createdId =>
      if createdId ≠ 0 ∧ queued ≠ [] then
        let r := uploadLoop createdId queued uploadOk 0
        if r.2 then
          { calls := .createEvent p :: r.1 ++ [.loadEvents, .loadEvents]
            modalClosed := true
            listRefreshed := true }
        else
          { calls := .createEvent p :: r.1
            modalClosed := false
            listRefreshed := false }
      else
        { calls := [.createEvent p, .loadEvents, .loadEvents]
          modalClosed := true
          listRefreshed := true }

/-! ## Server model (admin.js) -/

/-- One row of the `admin_users` table. -/
structure AdminRow where
  id : Nat
  username : String
  passwordHash : String
  isProtected : Bool
  securityQuestionId : Option Nat
  securityAnswerHash : Option String
deriving DecidableEq

/-- An HTTP response: status code plus optional JSON `error` field. -/
structure ApiResp where
  status : Nat
  error : Option String
deriving DecidableEq

/-- Request body of `PUT /api/admin/users/:id` and the field part of
`PUT /api/admin/profile`.  `none` embeds an absent (`undefined`) JSON field;
for `securityQuestionId`, `some q` is a provided value where `q = 0` embeds
any falsy provided value (JS stores `securityQuestionId || null`). -/
structure UserUpdateBody where
  password : Option String
  securityQuestionId : Option Nat
  securityQuestionIdProvided : Bool
  securityAnswer : Option String
deriving DecidableEq

/-- JS truthiness of an optional string: present and non-empty. -/
def strTruthy : Option String → Bool
  | some s => s ≠ ""
  | none => false

/-- JavaScript `String.prototype.trim()` at the `String` level. -/
def jsTrimStr (s : String) : String :=
  String.mk (jsTrim s.data)

/-- `password && password.trim()`. -/
def wantsPassword (b : UserUpdateBody) : Bool :=
  match b.password with
  | some p => strTruthy (some p) && (jsTrimStr p ≠ "")
  | none => false

/-- `securityAnswer && securityAnswer.trim()`. -/
def wantsAnswer (b : UserUpdateBody) : Bool :=
  match b.securityAnswer with
  | some a => strTruthy (some a) && (jsTrimStr a ≠ "")
  | none => false

/-- Whether the dynamic `fields` list of the UPDATE statement is non-empty. -/
def anyUpdateField (b : UserUpdateBody) : Bool :=
  wantsPassword b || b.securityQuestionIdProvided || wantsAnswer b

/-- Application of the dynamic UPDATE to one row, with `hash` standing for
`bcrypt.hash`. -/
def applyUserUpdate (hash : String → String) (b : UserUpdateBody)
    (r : AdminRow) : AdminRow :=
  let r1 := if wantsPassword b then
    { r with passwordHash := hash (jsTrimStr (b.password.getD "")) } else r
  let r2 := if b.securityQuestionIdProvided then
    { r1 with securityQuestionId :=
        match b.securityQuestionId with
        | some q => if q = 0 then none else some q
        | none => none } else r1
  if wantsAnswer b then
    { r2 with securityAnswerHash := some (hash (jsTrimStr (b.securityAnswer.getD ""))) }
  else r2

/-- `SELECT ... FROM admin_users WHERE id = ? LIMIT 1`. -/
def findUser (db : List AdminRow) (userId : Nat) : Option AdminRow :=
  db.find? (fun r => decide (r.id = userId))

/-- `PUT /api/admin/users/:id`: 404 when absent, 403 when protected, 400
when no fields, else UPDATE and 200. -/
def putUser (hash : String → String) (db : List AdminRow) (userId : Nat)
    (b : UserUpdateBody) : ApiResp × List AdminRow :=
  match findUser db userId with
  | none => ({ status := 404, error := some "Admin user not found." }, db)
  | some existing =>
    if existing.isProtected then
      ({ status := 403,
         error := some "This account is protected and cannot be edited." }, db)
    else if ¬ anyUpdateField b then
      ({ status := 400,
         error := some "No changes provided to update this user." }, db)
    else
      ({ status := 200, error := none },
       db.map (fun r => if r.id = userId then applyUserUpdate hash b r else r))

/-- `DELETE /api/admin/users/:id`: 404 when absent, 403 when protected,
else DELETE and 200. -/
def deleteUser (db : List AdminRow) (userId : Nat) : ApiResp × List AdminRow :=
  match findUser db userId with
  | none => ({ status := 404, error := some "Admin user not found." }, db)
  | some existing =>
    if existing.isProtected then
      ({ status := 403,
         error := some "This account is protected and cannot be deleted." }, db)
    else
      ({ status := 200, error := none },
       db.filter (fun r => decide (r.id ≠ userId)))

/-- `PUT /api/admin/profile`: requires `userId`, 404 when absent, 400 when
no fields — and performs no `is_protected` check before the UPDATE. -/
def putProfile (hash : String → String) (db : List AdminRow) (userId : Nat)
    (b : UserUpdateBody) : ApiResp × List AdminRow :=
  if userId = 0 then
    ({ status := 400, error := some "userId is required." }, db)
  else
    match findUser db userId with
    | none => ({ status := 404, error := some "Admin user not found." }, db)
    | some _ =>
      if ¬ anyUpdateField b then
        ({ status := 400, error := some "No profile changes provided." }, db)
      else
        ({ status := 200, error := none },
         db.map (fun r => if r.id = userId then applyUserUpdate hash b r else r))

/-! ## Login (POST /api/admin/login) -/

/-- Response of the login route as the client observes it. -/
structure LoginResp where
  status : Nat
  error : Option String
  requiresSecurityAnswer : Bool
  securityQuestionText : Option String
  success : Bool
deriving DecidableEq

/-- `POST /api/admin/login`.  `checkPw` stands for `bcrypt.compare`
(plaintext against stored hash); `questions` is the `security_questions`
table joined for the question text. -/
def loginRoute (checkPw : String → String → Bool) (db : List AdminRow)
    (questions : List (Nat × String)) (username password : String)
    (securityAnswer : Option String) : LoginResp :=
  if username = "" ∨ password = "" then
    { status := 400, error := some "Username and password are required."
      requiresSecurityAnswer := false, securityQuestionText := none
      success := false }
  else
    match db.find? (fun r => decide (r.username = username)) with
    | none =>
      { status := 401, error := some "Invalid username or password."
        requiresSecurityAnswer := false, securityQuestionText := none
        success := false }
    | some user =>
      if ¬ checkPw password user.passwordHash then
        { status := 401, error := some "Invalid username or password."
          requiresSecurityAnswer := false, securityQuestionText := none
          success := false }
      else
        let requiresSecurity := user.isProtected = false
          ∧ user.securityQuestionId ≠ none
        if requiresSecurity then
          if ¬ strTruthy securityAnswer then
            { status := 400, error := some "Security answer required."
              requiresSecurityAnswer := true
              securityQuestionText :=
                (questions.find? (fun q =>
                  decide (some q.1 = user.securityQuestionId))).map (·.2)
              success := false }
          else if ¬ checkPw (securityAnswer.getD "")
              (user.securityAnswerHash.getD "") then
            { status := 401, error := some "Incorrect security answer."
              requiresSecurityAnswer := false, securityQuestionText := none
              success := false }
          else
            { status := 200, error := none, requiresSecurityAnswer := false
              securityQuestionText := none, success := true }
        else
          { status := 200, error := none, requiresSecurityAnswer := false
            securityQuestionText := none, success := true }

/-! ## Event CRUD routes (POST/PUT /api/admin/events) -/

/-- One row of the `solar_events` table; optional content columns are NULL
when `none`. -/
structure EventRow where
  id : Nat
  event_date : String
  event_type : Option String
  location : Option String
  title : String
  short_description : Option String
  summary : Option String
  impact_on_communication : Option String
deriving DecidableEq

/-- Request body for the event routes; `none` embeds an absent field. -/
structure EventBody where
  event_date : Option String
  event_type : Option String
  location : Option String
  title : Option String
  short_description : Option String
  summary : Option String
  impact_on_communication : Option String
deriving DecidableEq

/-- `v || null`: an absent or empty string is stored as NULL. -/
def jsOrNull : Option String → Option String
  | some s => if s = "" then none else some s
  | none => none

/-- `POST /api/admin/events`: 400 unless `event_date` and `title` are
truthy, else INSERT with `|| null` on the five optional columns, 201. -/
def postEvent (db : List EventRow) (nextId : Nat) (b : EventBody) :
    ApiResp × List EventRow :=
  if ¬ (strTruthy b.event_date && strTruthy b.title) then
    ({ status := 400, error := some "event_date and title are required." }, db)
  else
    ({ status := 201, error := none },
     db ++ [{ id := nextId
              event_date := b.event_date.getD ""
              event_type := jsOrNull b.event_type
              location := jsOrNull b.location
              title := b.title.getD ""
              short_description := jsOrNull b.short_description
              summary := jsOrNull b.summary
              impact_on_communication := jsOrNull b.impact_on_communication }])

/-- `PUT /api/admin/events/:id`: same validation, UPDATE of all seven
columns, 404 when no row matched. -/
def putEvent (db : List EventRow) (eventId : Nat) (b : EventBody) :
    ApiResp × List EventRow :=
  if ¬ (strTruthy b.event_date && strTruthy b.title) then
    ({ status := 400, error := some "event_date and title are required." }, db)
  else if (db.filter (fun r => decide (r.id = eventId))).length = 0 then
    ({ status := 404, error := some "Event not found." }, db)
  else
    ({ status := 200, error := none },
     db.map (fun r =>
       if r.id = eventId then
         { id := r.id
           event_date := b.event_date.getD ""
           event_type := jsOrNull b.event_type
           location := jsOrNull b.location
           title := b.title.getD ""
           short_description := jsOrNull b.short_description
           summary := jsOrNull b.summary
           impact_on_communication := jsOrNull b.impact_on_communication }
       else r))

/-! ## Helper lemmas -/

theorem splitOnSep_no_sep (sep : Char) (l : List Char) (h : sep ∉ l) :
    splitOnSep sep l = [l] := by
  induction l with
  | nil => rfl
  | cons c rest ih =>
    simp only [List.mem_cons, not_or] at h
    simp only [splitOnSep, ih h.2]
    rw [if_neg (fun hc => h.1 hc.symm)]

theorem splitOnSep_append (sep : Char) (xs ys : List Char) (h : sep ∉ xs) :
    splitOnSep sep (xs ++ sep :: ys) = xs :: splitOnSep sep ys := by
  induction xs with
  | nil => simp [splitOnSep]
  | cons c rest ih =>
    simp only [List.mem_cons, not_or] at h
    simp only [List.cons_append, splitOnSep, List.append_eq, ih h.2]
    rw [if_neg (fun hc => h.1 hc.symm)]

theorem char_isDigit_ne_slash {c : Char} (h : c.isDigit = true) : c ≠ '/' := by
  intro hc; subst hc; simp [Char.isDigit] at h

theorem char_isDigit_ne_dash {c : Char} (h : c.isDigit = true) : c ≠ '-' := by
  intro hc; subst hc; simp [Char.isDigit] at h

theorem slash_not_mem_of_digits {l : List Char} (h : ∀ c ∈ l, c.isDigit = true) :
    '/' ∉ l := fun hm => char_isDigit_ne_slash (h _ hm) rfl

theorem dash_not_mem_of_digits {l : List Char} (h : ∀ c ∈ l, c.isDigit = true) :
    '-' ∉ l := fun hm => char_isDigit_ne_dash (h _ hm) rfl

theorem dropWhile_eq_nil_all {p : Char → Bool} {l : List Char}
    (h : l.dropWhile p = []) : ∀ c ∈ l, p c = true := by
  induction l with
  | nil => intro c hc; exact absurd hc (List.not_mem_nil c)
  | cons a t ih =>
    rw [List.dropWhile_cons] at h
    by_cases hp : p a = true
    · rw [if_pos hp] at h
      intro c hc
      rcases List.mem_cons.mp hc with rfl | hc2
      · exact hp
      · exact ih h c hc2
    · rw [if_neg hp] at h
      exact absurd h (List.cons_ne_nil a t)

theorem dropWhile_head_false {p : Char → Bool} {l t : List Char} {a : Char}
    (h : l.dropWhile p = a :: t) : p a = false := by
  induction l with
  | nil => simp [List.dropWhile] at h
  | cons c cs ih =>
    rw [List.dropWhile_cons] at h
    by_cases hp : p c = true
    · rw [if_pos hp] at h
      exact ih h
    · rw [if_neg hp] at h
      have hca : c = a := (List.cons.injEq c cs a t ▸ h).1
      rw [hca] at hp
      simpa using hp

theorem jsTrim_nil_all {y : List Char} (h : jsTrim y = []) :
    ∀ c ∈ y, c.isWhitespace = true := by
  unfold jsTrim at h
  rw [List.reverse_eq_nil_iff] at h
  have hall2 : ∀ c ∈ (y.dropWhile Char.isWhitespace).reverse, c.isWhitespace = true :=
    dropWhile_eq_nil_all h
  have hall : ∀ c ∈ y.dropWhile Char.isWhitespace, c.isWhitespace = true := by
    intro c hc
    exact hall2 c (List.mem_reverse.mpr hc)
  intro c hc
  rw [← List.takeWhile_append_dropWhile (p := Char.isWhitespace) (l := y)] at hc
  rcases List.mem_append.mp hc with hc1 | hc2
  · exact List.mem_takeWhile_imp hc1
  · exact hall c hc2

theorem jsTrim_jsTrim_ne_nil {x : List Char} (h : jsTrim x ≠ []) :
    jsTrim (jsTrim x) ≠ [] := by
  intro hcontra
  have hall := jsTrim_nil_all hcontra
  have hu : ((x.dropWhile Char.isWhitespace).reverse.dropWhile Char.isWhitespace) ≠ [] := by
    intro h0
    exact h (by unfold jsTrim; rw [h0]; rfl)
  obtain ⟨a, t, hat⟩ :=
    List.exists_cons_of_ne_nil hu
  have hws : a.isWhitespace = false := dropWhile_head_false hat
  have hamem : a ∈ jsTrim x := by
    unfold jsTrim
    rw [hat]
    exact List.mem_reverse.mpr (List.mem_cons_self a t)
  rw [hall a hamem] at hws
  simp at hws

theorem toIsoDate_parts (mm dd yyyy : List Char)
    (hmm : mm.length = 2) (hdd : dd.length = 2) (hyy : yyyy.length = 4)
    (hm : '/' ∉ mm) (hd : '/' ∉ dd) (hy : '/' ∉ yyyy) :
    toIsoDate (mm ++ '/' :: (dd ++ '/' :: yyyy)) =
      some (yyyy ++ '-' :: (mm ++ '-' :: dd)) := by
  have hlen : (mm ++ '/' :: (dd ++ '/' :: yyyy)).length = 10 := by
    simp [List.length_append, hmm, hdd, hyy]
  have hne : (mm ++ '/' :: (dd ++ '/' :: yyyy)) ≠ [] := by
    intro h0; rw [h0] at hlen; simp at hlen
  have hsplit : splitOnSep '/' (mm ++ '/' :: (dd ++ '/' :: yyyy)) = [mm, dd, yyyy] := by
    rw [splitOnSep_append '/' mm _ hm, splitOnSep_append '/' dd _ hd,
      splitOnSep_no_sep '/' yyyy hy]
  have hmne : mm ≠ [] := by intro h0; rw [h0] at hmm; simp at hmm
  have hdne : dd ≠ [] := by intro h0; rw [h0] at hdd; simp at hdd
  have hyne : yyyy ≠ [] := by intro h0; rw [h0] at hyy; simp at hyy
  unfold toIsoDate
  rw [if_pos ⟨hne, hlen⟩, hsplit]
  simp only [List.getD]
  rw [if_pos ⟨hmne, hdne, hyne, hyy⟩]
  simp

theorem toDisplayDate_parts (mm dd yyyy : List Char)
    (hmm : mm.length = 2) (hdd : dd.length = 2) (hyy : yyyy.length = 4)
    (hm : '-' ∉ mm) (hd : '-' ∉ dd) (hy : '-' ∉ yyyy) :
    toDisplayDate (yyyy ++ '-' :: (mm ++ '-' :: dd)) =
      mm ++ '/' :: (dd ++ '/' :: yyyy) := by
  have hlen : (yyyy ++ '-' :: (mm ++ '-' :: dd)).length = 10 := by
    simp [List.length_append, hmm, hdd, hyy]
  have htake : (yyyy ++ '-' :: (mm ++ '-' :: dd)).take 10
      = yyyy ++ '-' :: (mm ++ '-' :: dd) := by
    apply List.take_of_length_le; omega
  have hne : (yyyy ++ '-' :: (mm ++ '-' :: dd)) ≠ [] := by
    intro h0; rw [h0] at hlen; simp at hlen
  have hsplit : splitOnSep '-' (yyyy ++ '-' :: (mm ++ '-' :: dd)) = [yyyy, mm, dd] := by
    rw [splitOnSep_append '-' yyyy _ hy, splitOnSep_append '-' mm _ hm,
      splitOnSep_no_sep '-' dd hd]
  unfold toDisplayDate
  simp only [htake]
  rw [if_neg hne, hsplit]
  simp [List.getD]

theorem matchesMMDDYYYY_parts {d : List Char} (h : matchesMMDDYYYY d = true) :
    ∃ mm dd yyyy, d = mm ++ '/' :: (dd ++ '/' :: yyyy)
      ∧ mm.length = 2 ∧ dd.length = 2 ∧ yyyy.length = 4
      ∧ (∀ c ∈ mm, c.isDigit = true) ∧ (∀ c ∈ dd, c.isDigit = true)
      ∧ (∀ c ∈ yyyy, c.isDigit = true) := by
  match d with
  | [a, b, s, c, e, t, f1, g, h1, i] =>
    simp only [matchesMMDDYYYY, Bool.and_eq_true, decide_eq_true_eq] at h
    obtain ⟨⟨⟨⟨⟨⟨⟨⟨⟨ha, hb⟩, hs⟩, hc⟩, he⟩, ht⟩, hf⟩, hg⟩, hh⟩, hi⟩ := h
    subst hs; subst ht
    refine ⟨[a, b], [c, e], [f1, g, h1, i], rfl, rfl, rfl, rfl, ?_, ?_, ?_⟩
    · intro x hx
      simp only [List.mem_cons, List.not_mem_nil, or_false] at hx
      rcases hx with rfl | rfl
      · exact ha
      · exact hb
    · intro x hx
      simp only [List.mem_cons, List.not_mem_nil, or_false] at hx
      rcases hx with rfl | rfl
      · exact hc
      · exact he
    · intro x hx
      simp only [List.mem_cons, List.not_mem_nil, or_false] at hx
      rcases hx with rfl | rfl | rfl | rfl
      · exact hf
      · exact hg
      · exact hh
      · exact hi
  | [] => simp [matchesMMDDYYYY] at h
  | [_] => simp [matchesMMDDYYYY] at h
  | [_, _] => simp [matchesMMDDYYYY] at h
  | [_, _, _] => simp [matchesMMDDYYYY] at h
  | [_, _, _, _] => simp [matchesMMDDYYYY] at h
  | [_, _, _, _, _] => simp [matchesMMDDYYYY] at h
  | [_, _, _, _, _, _] => simp [matchesMMDDYYYY] at h
  | [_, _, _, _, _, _, _] => simp [matchesMMDDYYYY] at h
  | [_, _, _, _, _, _, _, _] => simp [matchesMMDDYYYY] at h
  | [_, _, _, _, _, _, _, _, _] => simp [matchesMMDDYYYY] at h
  | _ :: _ :: _ :: _ :: _ :: _ :: _ :: _ :: _ :: _ :: _ :: _ =>
    simp [matchesMMDDYYYY] at h

theorem length_filter_not_countP {α} (p : α → Bool) (l : List α) :
    (l.filter fun a => ! p a).length + l.countP p = l.length := by
  induction l with
  | nil => simp
  | cons a t ih =>
    by_cases h : p a = true
    · simp [List.filter_cons, List.countP_cons, h]; omega
    · simp only [Bool.not_eq_true] at h
      simp [List.filter_cons, List.countP_cons, h]; omega

/-! ## Claim theorems -/

/-- C6: the date-input shaping function leaves the field unchanged when the
previous value already holds 8 digits and the edit would add more; in every
other case it normalizes the raw input to its digits, truncates them to the
first 8, and re-segments them as MM/DD/YYYY. -/
theorem dateInput_shaping (previous raw : List Char) :
    ((digitsOnly previous).length ≥ 8 →
      (digitsOnly raw).length > (digitsOnly previous).length →
      handleDateInputChange previous raw = previous)
    ∧ (¬ ((digitsOnly previous).length ≥ 8
        ∧ (digitsOnly raw).length > (digitsOnly previous).length) →
      handleDateInputChange previous raw =
        segmentDigits ((digitsOnly raw).take 8)) := by
  constructor
  · intro h8 hgt
    unfold handleDateInputChange
    rw [if_pos ⟨h8, hgt⟩]
  · intro hne
    unfold handleDateInputChange
    rw [if_neg hne]
    by_cases hl : (digitsOnly raw).length > 8
    · rw [if_pos hl]
    · rw [if_neg hl, List.take_of_length_le (by omega)]

/-- C6 witness: with 8 digits in the field a ninth digit is rejected, and a
pasted 10-digit string lands as the first 8 digits segmented. -/
theorem dateInput_shaping_witness :
    handleDateInputChange "12/34/5678".data "12/34/56789".data = "12/34/5678".data
    ∧ handleDateInputChange [] "1234567890".data =
        segmentDigits ((digitsOnly "1234567890".data).take 8) := by
  exact ⟨(dateInput_shaping "12/34/5678".data "12/34/56789".data).1
      (by decide) (by decide),
    (dateInput_shaping [] "1234567890".data).2 (by decide)⟩

/-- C3: a Save attempt with any required field missing sets the tried-submit
flag, flags each missing field with a per-field error, and does not invoke
`onSave`, the only path that issues network calls. -/
theorem primarySave_blocks_on_missing (f : EventForm)
    (h : isValidDate f.date = false ∨ jsTrim f.event_type = []
      ∨ jsTrim f.location = [] ∨ jsTrim f.title = []
      ∨ jsTrim f.short_description = [] ∨ jsTrim f.summary = []
      ∨ jsTrim f.impact_on_communication = []) :
    (handlePrimarySaveClick f).onSaveCalled = false
    ∧ (handlePrimarySaveClick f).eventTriedSubmit = true
    ∧ (isValidDate f.date = false →
        (handlePrimarySaveClick f).eventErrors.date = requiredMsg)
    ∧ (jsTrim f.event_type = [] →
        (handlePrimarySaveClick f).eventErrors.event_type = requiredMsg)
    ∧ (jsTrim f.location = [] →
        (handlePrimarySaveClick f).eventErrors.location = requiredMsg)
    ∧ (jsTrim f.title = [] →
        (handlePrimarySaveClick f).eventErrors.title = requiredMsg)
    ∧ (jsTrim f.short_description = [] →
        (handlePrimarySaveClick f).eventErrors.short_description = requiredMsg)
    ∧ (jsTrim f.summary = [] →
        (handlePrimarySaveClick f).eventErrors.summary = requiredMsg)
    ∧ (jsTrim f.impact_on_communication = [] →
        (handlePrimarySaveClick f).eventErrors.impact_on_communication
          = requiredMsg) := by
  refine ⟨?_, rfl, ?_, ?_, ?_, ?_, ?_, ?_, ?_⟩
  · simp only [handlePrimarySaveClick, errorsAllClear, validateEventForm]
    rcases h with h | h | h | h | h | h | h <;>
      simp [h, requiredMsg]
  all_goals
    intro hm
    simp [handlePrimarySaveClick, validateEventForm, hm]

/-- C3 witness: a form with everything valid except an empty title is
blocked with the title flagged. -/
theorem primarySave_blocks_on_missing_witness :
    (handlePrimarySaveClick
      { date := "09/01/1859".data, event_type := "Solar Flare".data
        location := "Global".data, title := "   ".data
        short_description := "x".data, summary := "y".data
        impact_on_communication := "z".data }).onSaveCalled = false := by
  exact (primarySave_blocks_on_missing _ (Or.inr (Or.inr (Or.inr (Or.inl
    (by decide)))))).1

/-- C4: switching the displayed item between two create-mode queued media
items (both of which lack a server `id`, so the reset effect's dependency
`currentMedia?.id` stays `undefined`) leaves an in-progress caption edit
active with the stale draft — the state is returned unchanged, with
`captionEditing` still `true` and the draft still the old item's text,
instead of the required reset to `false` with draft `B`. -/
theorem queuedSwitch_keeps_caption_edit :
    stepMediaChange
        (some { serverId := none, caption := "A".data })
        (some { serverId := none, caption := "B".data })
        { captionEditing := true, captionDraft := "A".data }
      = { captionEditing := true, captionDraft := "A".data } := rfl

/-- C7: after deleting the single media item carrying the target key from a
list of M items at a valid index, the edit-mode and create-mode updates both
leave M−1 items; with M = 1 the index resets to 0, and with M ≥ 2 the index
stays within [0, M−2], valid for the shortened list. -/
theorem deleteMedia_index_bounds
    (media : List PersistedMedia) (targetId : Nat) (idx : Nat)
    (queued : List QueuedMedia) (target : String) (qidx : Nat)
    (hcount : media.countP (fun m => decide (m.id = targetId)) = 1)
    (hidx : idx < media.length)
    (hqcount : queued.countP (fun m => decide (m.localId = target)) = 1)
    (hqidx : qidx < queued.length) :
    ((confirmDeleteMediaUpdate media targetId idx).1.length = media.length - 1
      ∧ (media.length = 1 → (confirmDeleteMediaUpdate media targetId idx).2 = 0)
      ∧ (2 ≤ media.length →
          (confirmDeleteMediaUpdate media targetId idx).2 ≤ media.length - 2
          ∧ (confirmDeleteMediaUpdate media targetId idx).2
              < (confirmDeleteMediaUpdate media targetId idx).1.length))
    ∧ ((createDeleteMediaUpdate queued target qidx).1.length = queued.length - 1
      ∧ (queued.length = 1 → (createDeleteMediaUpdate queued target qidx).2 = 0)
      ∧ (2 ≤ queued.length →
          (createDeleteMediaUpdate queued target qidx).2 ≤ queued.length - 2
          ∧ (createDeleteMediaUpdate queued target qidx).2
              < (createDeleteMediaUpdate queued target qidx).1.length)) := by
  have hmedia : (media.filter fun m => decide (m.id ≠ targetId)).length
      = media.length - 1 := by
    have h1 := length_filter_not_countP (fun m => decide (m.id = targetId)) media
    rw [hcount] at h1
    have heq : (media.filter fun m => decide (m.id ≠ targetId))
        = media.filter fun m => !decide (m.id = targetId) :=
      List.filter_congr (fun m _ => by simp [decide_not])
    rw [heq]
    omega
  have hqueued : (queued.filter fun m => decide (m.localId ≠ target)).length
      = queued.length - 1 := by
    have h1 := length_filter_not_countP (fun m => decide (m.localId = target)) queued
    rw [hqcount] at h1
    have heq : (queued.filter fun m => decide (m.localId ≠ target))
        = queued.filter fun m => !decide (m.localId = target) :=
      List.filter_congr (fun m _ => by simp [decide_not])
    rw [heq]
    omega
  have e1 : (confirmDeleteMediaUpdate media targetId idx).1
      = media.filter (fun m => decide (m.id ≠ targetId)) := by
    unfold confirmDeleteMediaUpdate
    rw [apply_ite Prod.fst]
    simp only [ite_self]
  have e2 : (confirmDeleteMediaUpdate media targetId idx).2
      = if (media.filter (fun m => decide (m.id ≠ targetId))).length = 0 then 0
        else if idx ≥ (media.filter (fun m => decide (m.id ≠ targetId))).length
          then (media.filter (fun m => decide (m.id ≠ targetId))).length - 1
          else idx := by
    unfold confirmDeleteMediaUpdate
    rw [apply_ite Prod.snd]
  have f1 : (createDeleteMediaUpdate queued target qidx).1
      = queued.filter (fun m => decide (m.localId ≠ target)) := rfl
  have f2 : (createDeleteMediaUpdate queued target qidx).2
      = if (queued.filter (fun m => decide (m.localId ≠ target))).length ≠ 0
          then min qidx ((queued.filter (fun m => decide (m.localId ≠ target))).length - 1)
          else 0 := rfl
  refine ⟨⟨?_, ?_, ?_⟩, ?_, ?_, ?_⟩
  · rw [e1]
    exact hmedia
  · intro h1
    rw [e2, if_pos (by omega)]
  · intro h2
    rw [e2, e1, if_neg (by omega), hmedia]
    constructor
    · split <;> omega
    · split <;> omega
  · rw [f1]
    exact hqueued
  · intro h1
    rw [f2, if_neg (by omega)]
  · intro h2
    rw [f2, f1, if_pos (by omega), hqueued, Nat.min_def]
    constructor
    · split <;> omega
    · split <;> omega

/-- C7 witness: deleting the sole item resets to 0 in both modes (M = 1). -/
theorem deleteMedia_index_bounds_witness :
    ((confirmDeleteMediaUpdate [{ id := 5, caption := "A".data }] 5 0).2 = 0)
    ∧ ((createDeleteMediaUpdate
        [{ localId := "local-1", file := 1, previewUrl := "p", caption := "A".data }]
        "local-1" 0).2 = 0) := by
  have h := deleteMedia_index_bounds
    [{ id := 5, caption := "A".data }] 5 0
    [{ localId := "local-1", file := 1, previewUrl := "p", caption := "A".data }]
    "local-1" 0
    (by decide) (by decide) (by decide) (by decide)
  exact ⟨h.1.2.1 (by decide), h.2.2.1 (by decide)⟩

/-- C8: the display-to-storage transformation of `handleSaveEvent` and the
storage-to-display transformation of `openEventModal` are mutual inverses on
every well-formed MM/DD/YYYY date. -/
theorem dateRoundTrip (mm dd yyyy : List Char)
    (hmm : mm.length = 2) (hdd : dd.length = 2) (hyy : yyyy.length = 4)
    (hm : ∀ c ∈ mm, c.isDigit = true) (hd : ∀ c ∈ dd, c.isDigit = true)
    (hy : ∀ c ∈ yyyy, c.isDigit = true) :
    toIsoDate (mm ++ '/' :: (dd ++ '/' :: yyyy))
      = some (yyyy ++ '-' :: (mm ++ '-' :: dd))
    ∧ toDisplayDate (yyyy ++ '-' :: (mm ++ '-' :: dd))
      = mm ++ '/' :: (dd ++ '/' :: yyyy) :=
  ⟨toIsoDate_parts mm dd yyyy hmm hdd hyy (slash_not_mem_of_digits hm)
      (slash_not_mem_of_digits hd) (slash_not_mem_of_digits hy),
    toDisplayDate_parts mm dd yyyy hmm hdd hyy (dash_not_mem_of_digits hm)
      (dash_not_mem_of_digits hd) (dash_not_mem_of_digits hy)⟩

/-- C8 witness: 09/01/1859 persists as 1859-09-01 and redisplays as
09/01/1859. -/
theorem dateRoundTrip_witness :
    toIsoDate ("09".data ++ '/' :: ("01".data ++ '/' :: "1859".data))
      = some ("1859".data ++ '-' :: ("09".data ++ '-' :: "01".data))
    ∧ toDisplayDate ("1859".data ++ '-' :: ("09".data ++ '-' :: "01".data))
      = "09".data ++ '/' :: ("01".data ++ '/' :: "1859".data) :=
  dateRoundTrip "09".data "01".data "1859".data (by decide) (by decide)
    (by decide) (by decide) (by decide) (by decide)

/-- C9: with an existing username and a wrong non-empty password, the login
route answers 401 invalid credentials with no security-question challenge,
no matter how the account's security question is configured and no matter
what answer was supplied. -/
theorem login_wrongPassword (checkPw : String → String → Bool)
    (db : List AdminRow) (questions : List (Nat × String))
    (username password : String) (securityAnswer : Option String) (u : AdminRow)
    (hU : username ≠ "") (hP : password ≠ "")
    (hfind : db.find? (fun r => decide (r.username = username)) = some u)
    (hwrong : checkPw password u.passwordHash = false) :
    loginRoute checkPw db questions username password securityAnswer
      = { status := 401, error := some "Invalid username or password."
          requiresSecurityAnswer := false, securityQuestionText := none
          success := false } := by
  unfold loginRoute
  rw [if_neg (by simp [hU, hP]), hfind]
  simp [hwrong]

/-- C9 witness: an account with a configured security question still gets a
plain 401 on a wrong password. -/
theorem login_wrongPassword_witness :
    loginRoute (fun p h => p == h)
      [{ id := 1, username := "alice", passwordHash := "pw1"
         isProtected := false, securityQuestionId := some 3
         securityAnswerHash := some "ans" }]
      [(3, "What is your favorite star?")] "alice" "bad" none
      = { status := 401, error := some "Invalid username or password."
          requiresSecurityAnswer := false, securityQuestionText := none
          success := false } :=
  login_wrongPassword (fun p h => p == h) _ _ "alice" "bad" none
    { id := 1, username := "alice", passwordHash := "pw1"
      isProtected := false, securityQuestionId := some 3
      securityAnswerHash := some "ans" }
    (by decide) (by decide) (by decide) (by decide)

/-- C10: the server event routes accept any payload whose `event_date` and
`title` are non-empty, returning 201/200 and storing each of the five other
content fields through `jsOrNull`, which maps an absent or empty field to
NULL — strictly weaker than the Editor's seven-mandatory-fields rule. -/
theorem serverEventValidation
    (db db2 : List EventRow) (nextId eid : Nat) (b : EventBody) (row : EventRow)
    (hd : strTruthy b.event_date = true) (ht : strTruthy b.title = true)
    (hrow : row ∈ db2) (hid : row.id = eid) :
    (postEvent db nextId b).1.status = 201
    ∧ (postEvent db nextId b).2
        = db ++ [{ id := nextId
                   event_date := b.event_date.getD ""
                   event_type := jsOrNull b.event_type
                   location := jsOrNull b.location
                   title := b.title.getD ""
                   short_description := jsOrNull b.short_description
                   summary := jsOrNull b.summary
                   impact_on_communication := jsOrNull b.impact_on_communication }]
    ∧ (∀ v : Option String, v = none ∨ v = some "" → jsOrNull v = none)
    ∧ (putEvent db2 eid b).1.status = 200 := by
  have hcond : ¬ ¬ (strTruthy b.event_date && strTruthy b.title) = true := by
    simp [hd, ht]
  have hmemf : row ∈ db2.filter (fun r => decide (r.id = eid)) :=
    List.mem_filter.mpr ⟨hrow, by simp [hid]⟩
  have hne : ¬ (db2.filter (fun r => decide (r.id = eid))).length = 0 := by
    intro h0
    rw [List.length_eq_zero] at h0
    rw [h0] at hmemf
    exact absurd hmemf (List.not_mem_nil row)
  refine ⟨?_, ?_, ?_, ?_⟩
  · unfold postEvent
    rw [if_neg hcond]
  · unfold postEvent
    rw [if_neg hcond]
  · intro v hv
    rcases hv with rfl | rfl <;> simp [jsOrNull]
  · unfold putEvent
    rw [if_neg hcond, if_neg hne]

/-- C10 witness: a payload carrying only a date and a title is accepted by
both routes, with the optional columns stored as NULL. -/
theorem serverEventValidation_witness :
    (postEvent []
      1
      { event_date := some "1859-09-01", event_type := none, location := none
        title := some "Carrington", short_description := none, summary := none
        impact_on_communication := some "" }).1.status = 201
    ∧ (putEvent [{ id := 7, event_date := "1859-09-01", event_type := none
                   location := none, title := "Carrington"
                   short_description := none, summary := none
                   impact_on_communication := none }]
      7
      { event_date := some "1859-09-01", event_type := none, location := none
        title := some "Carrington", short_description := none, summary := none
        impact_on_communication := some "" }).1.status = 200 := by
  have h := serverEventValidation []
    [{ id := 7, event_date := "1859-09-01", event_type := none
       location := none, title := "Carrington", short_description := none
       summary := none, impact_on_communication := none }]
    1 7
    { event_date := some "1859-09-01", event_type := none, location := none
      title := some "Carrington", short_description := none, summary := none
      impact_on_communication := some "" }
    { id := 7, event_date := "1859-09-01", event_type := none
      location := none, title := "Carrington", short_description := none
      summary := none, impact_on_communication := none }
    (by decide) (by decide) (by decide) (by decide)
  exact ⟨h.1, h.2.2.2⟩

/-- C2 counterexample: `PUT /api/admin/profile` performs no `is_protected`
check, so it answers 200 for a protected account and overwrites its stored
password hash (`oldhash` becomes the hash of the new password), refuting
the claim that every mutating route refuses protected accounts. -/
theorem profileRoute_mutates_protected :
    putProfile (fun s => s ++ "#h")
      [{ id := 1, username := "admin", passwordHash := "oldhash"
         isProtected := true, securityQuestionId := none
         securityAnswerHash := none }] 1
      { password := some "newpw", securityQuestionId := none
        securityQuestionIdProvided := false, securityAnswer := none }
      = ({ status := 200, error := none },
         [{ id := 1, username := "admin", passwordHash := "newpw#h"
            isProtected := true, securityQuestionId := none
            securityAnswerHash := none }]) := by
  decide

/-- C2 (amended): the two admin-user management routes refuse every
mutation of a protected account with a 403 permission error, leaving the
stored rows unchanged; the profile route carries no such check. -/
theorem protected_user_routes_refuse (hash : String → String)
    (db : List AdminRow) (userId : Nat) (b : UserUpdateBody) (u : AdminRow)
    (hfind : findUser db userId = some u) (hprot : u.isProtected = true) :
    putUser hash db userId b
      = ({ status := 403,
           error := some "This account is protected and cannot be edited." }, db)
    ∧ deleteUser db userId
      = ({ status := 403,
           error := some "This account is protected and cannot be deleted." }, db) := by
  constructor
  · unfold putUser
    rw [hfind]
    simp [hprot]
  · unfold deleteUser
    rw [hfind]
    simp [hprot]

/-- C2 witness: a concrete protected account is refused by both management
routes with its row intact. -/
theorem protected_user_routes_refuse_witness :
    putUser (fun s => s ++ "#h")
      [{ id := 1, username := "admin", passwordHash := "oldhash"
         isProtected := true, securityQuestionId := none
         securityAnswerHash := none }] 1
      { password := some "newpw", securityQuestionId := none
        securityQuestionIdProvided := false, securityAnswer := none }
      = ({ status := 403,
           error := some "This account is protected and cannot be edited." },
         [{ id := 1, username := "admin", passwordHash := "oldhash"
            isProtected := true, securityQuestionId := none
            securityAnswerHash := none }])
    ∧ deleteUser
      [{ id := 1, username := "admin", passwordHash := "oldhash"
         isProtected := true, securityQuestionId := none
         securityAnswerHash := none }] 1
      = ({ status := 403,
           error := some "This account is protected and cannot be deleted." },
         [{ id := 1, username := "admin", passwordHash := "oldhash"
            isProtected := true, securityQuestionId := none
            securityAnswerHash := none }]) :=
  protected_user_routes_refuse (fun s => s ++ "#h") _ 1
    { password := some "newpw", securityQuestionId := none
      securityQuestionIdProvided := false, securityAnswer := none }
    { id := 1, username := "admin", passwordHash := "oldhash"
      isProtected := true, securityQuestionId := none
      securityAnswerHash := none }
    (by decide) (by decide)

theorem closestFold_spec (num : Nat) (l : List Nat) :
    ∀ init : Nat, l.Pairwise (· < ·) → (∀ y ∈ l, init ≤ y) →
      (List.foldl
          (fun prev curr => if yearDist curr num < yearDist prev num then curr else prev)
          init l = init
        ∨ List.foldl
          (fun prev curr => if yearDist curr num < yearDist prev num then curr else prev)
          init l ∈ l)
      ∧ yearDist (List.foldl
          (fun prev curr => if yearDist curr num < yearDist prev num then curr else prev)
          init l) num ≤ yearDist init num
      ∧ (∀ y ∈ l, yearDist (List.foldl
          (fun prev curr => if yearDist curr num < yearDist prev num then curr else prev)
          init l) num ≤ yearDist y num)
      ∧ (yearDist init num = yearDist (List.foldl
          (fun prev curr => if yearDist curr num < yearDist prev num then curr else prev)
          init l) num →
        List.foldl
          (fun prev curr => if yearDist curr num < yearDist prev num then curr else prev)
          init l = init)
      ∧ (∀ y ∈ l, yearDist y num = yearDist (List.foldl
          (fun prev curr => if yearDist curr num < yearDist prev num then curr else prev)
          init l) num →
        List.foldl
          (fun prev curr => if yearDist curr num < yearDist prev num then curr else prev)
          init l ≤ y) := by
  induction l with
  | nil =>
    intro init _ _
    refine ⟨Or.inl rfl, le_refl _, ?_, fun _ => rfl, ?_⟩
    · intro y hy; exact absurd hy (List.not_mem_nil y)
    · intro y hy; exact absurd hy (List.not_mem_nil y)
  | cons curr rest ih =>
    intro init hsort hle
    have hsr : rest.Pairwise (· < ·) := (List.pairwise_cons.mp hsort).2
    have hcr : ∀ y ∈ rest, curr < y := (List.pairwise_cons.mp hsort).1
    have hinitcurr : init ≤ curr := hle curr (List.mem_cons_self curr rest)
    by_cases hc : yearDist curr num < yearDist init num
    · have hstep : List.foldl
          (fun prev c => if yearDist c num < yearDist prev num then c else prev)
          init (curr :: rest)
          = List.foldl
            (fun prev c => if yearDist c num < yearDist prev num then c else prev)
            curr rest := by
        rw [List.foldl_cons, if_pos hc]
      have hle2 : ∀ y ∈ rest, curr ≤ y := fun y hy => le_of_lt (hcr y hy)
      obtain ⟨hmem, hlei, hmin, htiei, htie⟩ := ih curr hsr hle2
      rw [hstep]
      refine ⟨?_, ?_, ?_, ?_, ?_⟩
      · rcases hmem with h | h
        · exact Or.inr (by rw [h]; exact List.mem_cons_self curr rest)
        · exact Or.inr (List.mem_cons_of_mem curr h)
      · omega
      · intro y hy
        rcases List.mem_cons.mp hy with rfl | hy2
        · exact hlei
        · exact hmin y hy2
      · intro hti
        exact absurd hti (by omega)
      · intro y hy hty
        rcases List.mem_cons.mp hy with rfl | hy2
        · exact le_of_eq (htiei hty)
        · exact htie y hy2 hty
    · have hstep : List.foldl
          (fun prev c => if yearDist c num < yearDist prev num then c else prev)
          init (curr :: rest)
          = List.foldl
            (fun prev c => if yearDist c num < yearDist prev num then c else prev)
            init rest := by
        rw [List.foldl_cons, if_neg hc]
      have hle2 : ∀ y ∈ rest, init ≤ y := fun y hy => hle y (List.mem_cons_of_mem curr hy)
      obtain ⟨hmem, hlei, hmin, htiei, htie⟩ := ih init hsr hle2
      rw [hstep]
      refine ⟨?_, ?_, ?_, ?_, ?_⟩
      · rcases hmem with h | h
        · exact Or.inl h
        · exact Or.inr (List.mem_cons_of_mem curr h)
      · exact hlei
      · intro y hy
        rcases List.mem_cons.mp hy with rfl | hy2
        · omega
        · exact hmin y hy2
      · exact htiei
      · intro y hy hty
        rcases List.mem_cons.mp hy with rfl | hy2
        · have hri : List.foldl
              (fun prev c => if yearDist c num < yearDist prev num then c else prev)
              init rest = init := htiei (by omega)
          rw [hri]
          exact hinitcurr
        · exact htie y hy2 hty

/-- C5: a submitted 4-digit year with events is selected directly; a year
without events resolves to the numerically closest available year — ties
broken toward the year seen first in the ascending iteration — and the
informational note names the substitution. -/
theorem yearSearch_resolution (years : List Nat) (q : List Char)
    (hsort : years.Pairwise (· < ·)) (hne : years ≠ [])
    (hq : isFourDigitQuery q = true) :
    (parseYearDigits q ∈ years →
      handleYearSearchSubmit years q
        = { searchError := "", searchInfo := ""
            scrollToYear := some (parseYearDigits q) })
    ∧ (parseYearDigits q ∉ years →
      handleYearSearchSubmit years q
        = { searchError := ""
            searchInfo := "No events for " ++ toString (parseYearDigits q)
              ++ ". Showing closest year: "
              ++ toString (closestReduce years (parseYearDigits q)) ++ "."
            scrollToYear := some (closestReduce years (parseYearDigits q)) }
      ∧ closestReduce years (parseYearDigits q) ∈ years
      ∧ (∀ y ∈ years,
          yearDist (closestReduce years (parseYearDigits q)) (parseYearDigits q)
            ≤ yearDist y (parseYearDigits q))
      ∧ (∀ y ∈ years,
          yearDist y (parseYearDigits q)
              = yearDist (closestReduce years (parseYearDigits q)) (parseYearDigits q) →
          closestReduce years (parseYearDigits q) ≤ y)) := by
  have hlen : ¬ years.length = 0 := by
    intro h0
    exact hne (List.length_eq_zero.mp h0)
  have hhead : ∀ y ∈ years, years.headD 0 ≤ y := by
    cases years with
    | nil => exact absurd rfl hne
    | cons h t =>
      intro y hy
      rcases List.mem_cons.mp hy with rfl | hy2
      · exact le_refl _
      · exact le_of_lt ((List.pairwise_cons.mp hsort).1 y hy2)
  have hspec := closestFold_spec (parseYearDigits q) years (years.headD 0) hsort hhead
  have hcmem : closestReduce years (parseYearDigits q) ∈ years := by
    rcases hspec.1 with h | h
    · unfold closestReduce
      rw [h]
      cases years with
      | nil => exact absurd rfl hne
      | cons a t => exact List.mem_cons_self a t
    · exact h
  constructor
  · intro hmem
    unfold handleYearSearchSubmit
    rw [if_neg (by simp [hq]), if_neg hlen,
      if_pos (by simp [List.contains, List.elem_iff, hmem])]
  · intro hnot
    refine ⟨?_, hcmem, hspec.2.2.1, hspec.2.2.2.2⟩
    unfold handleYearSearchSubmit
    rw [if_neg (by simp [hq]), if_neg hlen,
      if_neg (by simp [List.contains, List.elem_iff, hnot])]

/-- C5 witness: available years 1859, 1921, 1989 and query 1900 select 1921
with the substitution note. -/
theorem yearSearch_resolution_witness :
    handleYearSearchSubmit [1859, 1921, 1989] "1900".data
      = { searchError := ""
          searchInfo := "No events for 1900. Showing closest year: 1921."
          scrollToYear := some 1921 } := by
  have h := (yearSearch_resolution [1859, 1921, 1989] "1900".data
    (by decide) (by decide) (by decide)).2 (by decide)
  rw [h.1]
  have hclosest : closestReduce [1859, 1921, 1989] (parseYearDigits "1900".data)
      = 1921 := by decide
  rw [hclosest]
  have hnum : parseYearDigits "1900".data = 1900 := by decide
  rw [hnum]
  decide

theorem uploadLoop_all_ok (eventId : Nat) (uploadOk : Nat → Bool)
    (hok : ∀ i, uploadOk i = true) :
    ∀ (items : List QueuedMedia) (i : Nat),
      uploadLoop eventId items uploadOk i
        = (items.map (fun m => NetCall.uploadMedia eventId m.file (jsTrim m.caption)),
           true) := by
  intro items
  induction items with
  | nil => intro i; rfl
  | cons m rest ih =>
    intro i
    simp only [uploadLoop, hok i, if_pos, List.map_cons]
    rw [ih (i + 1)]

theorem payloadMissing_false_of_valid (f : EventForm)
    (hdate : matchesMMDDYYYY f.date = true)
    (hty : jsTrim f.event_type ≠ [])
    (hloc : jsTrim f.location ≠ []) (httl : jsTrim f.title ≠ [])
    (hsd : jsTrim f.short_description ≠ []) (hsum : jsTrim f.summary ≠ [])
    (himp : jsTrim f.impact_on_communication ≠ []) :
    payloadMissing (buildPayload f) = false := by
  obtain ⟨mm, dd, yyyy, hshape, hmm, hdd, hyy, hdm, hdd2, hdy⟩ :=
    matchesMMDDYYYY_parts hdate
  have hiso : toIsoDate f.date = some (yyyy ++ '-' :: (mm ++ '-' :: dd)) := by
    rw [hshape]
    exact toIsoDate_parts mm dd yyyy hmm hdd hyy (slash_not_mem_of_digits hdm)
      (slash_not_mem_of_digits hdd2) (slash_not_mem_of_digits hdy)
  have htyne : f.event_type ≠ [] := by
    intro h0
    exact hty (by rw [h0]; rfl)
  simp only [payloadMissing, buildPayload, hiso, if_neg htyne, Option.getD_some,
    Bool.or_eq_false_iff, decide_eq_false_iff_not]
  refine ⟨⟨⟨⟨⟨⟨?_, ?_⟩, ?_⟩, ?_⟩, ?_⟩, ?_⟩, ?_⟩
  · simp
  · exact hty
  · exact jsTrim_jsTrim_ne_nil hloc
  · exact jsTrim_jsTrim_ne_nil httl
  · exact jsTrim_jsTrim_ne_nil hsd
  · exact jsTrim_jsTrim_ne_nil hsum
  · exact jsTrim_jsTrim_ne_nil himp

/-- C1: with all seven fields valid, the create-mode save issues exactly one
create call followed by exactly one upload per queued item in enqueue order
(the sequential loop trace), and when every upload succeeds the modal closes
and the event list is refreshed. -/
theorem createSave_trace (f : EventForm) (queued : List QueuedMedia)
    (createdId : Nat) (uploadOk : Nat → Bool)
    (hdate : matchesMMDDYYYY f.date = true)
    (hty : jsTrim f.event_type ≠ [])
    (hloc : jsTrim f.location ≠ []) (httl : jsTrim f.title ≠ [])
    (hsd : jsTrim f.short_description ≠ []) (hsum : jsTrim f.summary ≠ [])
    (himp : jsTrim f.impact_on_communication ≠ [])
    (hid : createdId ≠ 0) (hok : ∀ i, uploadOk i = true) :
    (runCreateSave f queued (some createdId) uploadOk).calls
      = NetCall.createEvent (buildPayload f)
        :: (queued.map (fun m => NetCall.uploadMedia createdId m.file (jsTrim m.caption))
          ++ [NetCall.loadEvents, NetCall.loadEvents])
    ∧ ((runCreateSave f queued (some createdId) uploadOk).calls.countP
        NetCall.isCreate) = 1
    ∧ ((runCreateSave f queued (some createdId) uploadOk).calls.countP
        NetCall.isUpload) = queued.length
    ∧ (runCreateSave f queued (some createdId) uploadOk).modalClosed = true
    ∧ (runCreateSave f queued (some createdId) uploadOk).listRefreshed = true := by
  have hmiss := payloadMissing_false_of_valid f hdate hty hloc httl hsd hsum himp
  have hcalls : (runCreateSave f queued (some createdId) uploadOk).calls
      = NetCall.createEvent (buildPayload f)
        :: (queued.map (fun m => NetCall.uploadMedia createdId m.file (jsTrim m.caption))
          ++ [NetCall.loadEvents, NetCall.loadEvents])
      ∧ (runCreateSave f queued (some createdId) uploadOk).modalClosed = true
      ∧ (runCreateSave f queued (some createdId) uploadOk).listRefreshed = true := by
    cases queued with
    | nil =>
      refine ⟨?_, ?_, ?_⟩ <;> simp [runCreateSave, hmiss]
    | cons m rest =>
      have hloop := uploadLoop_all_ok createdId uploadOk hok (m :: rest) 0
      refine ⟨?_, ?_, ?_⟩ <;> simp [runCreateSave, hmiss, hid, hloop]
  refine ⟨hcalls.1, ?_, ?_, hcalls.2.1, hcalls.2.2⟩
  · rw [hcalls.1]
    simp only [List.countP_cons, List.countP_append, List.countP_map]
    simp [NetCall.isCreate, NetCall.isUpload, List.countP_eq_zero]
  · rw [hcalls.1]
    simp only [List.countP_cons, List.countP_append, List.countP_map]
    simp [NetCall.isCreate, NetCall.isUpload, Function.comp]

/-- C1 witness: two queued items captioned A and B produce one create, then
uploads A and B in order, then the refresh calls, with the modal closed. -/
theorem createSave_trace_witness :
    (runCreateSave
      { date := "09/01/1859".data, event_type := "Solar Flare".data
        location := "Global".data, title := "Carrington Event".data
        short_description := "Telegraphs failed".data
        summary := "Severe storm".data
        impact_on_communication := "Lines burned".data }
      [{ localId := "local-1", file := 10, previewUrl := "blob:a"
         caption := "A".data },
       { localId := "local-2", file := 20, previewUrl := "blob:b"
         caption := "B".data }]
      (some 1) (fun _ => true)).calls
      = NetCall.createEvent (buildPayload
          { date := "09/01/1859".data, event_type := "Solar Flare".data
            location := "Global".data, title := "Carrington Event".data
            short_description := "Telegraphs failed".data
            summary := "Severe storm".data
            impact_on_communication := "Lines burned".data })
        :: (([{ localId := "local-1", file := 10, previewUrl := "blob:a"
                caption := "A".data },
              { localId := "local-2", file := 20, previewUrl := "blob:b"
                caption := "B".data }] : List QueuedMedia).map
              (fun m => NetCall.uploadMedia 1 m.file (jsTrim m.caption))
          ++ [NetCall.loadEvents, NetCall.loadEvents])
    ∧ (runCreateSave
      { date := "09/01/1859".data, event_type := "Solar Flare".data
        location := "Global".data, title := "Carrington Event".data
        short_description := "Telegraphs failed".data
        summary := "Severe storm".data
        impact_on_communication := "Lines burned".data }
      [{ localId := "local-1", file := 10, previewUrl := "blob:a"
         caption := "A".data },
       { localId := "local-2", file := 20, previewUrl := "blob:b"
         caption := "B".data }]
      (some 1) (fun _ => true)).modalClosed = true := by
  have h := createSave_trace
    { date := "09/01/1859".data, event_type := "Solar Flare".data
      location := "Global".data, title := "Carrington Event".data
      short_description := "Telegraphs failed".data
      summary := "Severe storm".data
      impact_on_communication := "Lines burned".data }
    [{ localId := "local-1", file := 10, previewUrl := "blob:a"
       caption := "A".data },
     { localId := "local-2", file := 20, previewUrl := "blob:b"
       caption := "B".data }]
    1 (fun _ => true)
    (by decide) (by decide) (by decide) (by decide) (by decide) (by decide)
    (by decide) (by decide) (fun i => rfl)
  exact ⟨h.1, h.2.2.2.1⟩

end SolarImpact
